import Mathlib

set_option autoImplicit false

/-!
Verification development for the cosmoid-bridge repository.

The JavaScript modules are shallowly embedded: `Map` objects become
association lists with JS `Map` semantics (`mapHas`, `mapGet`, `mapSet`,
`mapDelete`), `Buffer`s become lists of byte values (`List Nat`),
strings handled by UUID normalization become lists of UTF-16 code
units (`List Nat`), thrown exceptions become `Except String`, and each
event emitted via `EventEmitter` becomes a value in an explicit event
list returned by the embedded function.
-/

namespace CosmoidBridge

/-- Model of JavaScript `Map.prototype.has` over an association list. -/
def mapHas {α : Type} (m : List (String × α)) (k : String) : Bool :=
  m.any (fun p => p.1 == k)

/-- Model of JavaScript `Map.prototype.get` (returns `undefined` as `none`). -/
def mapGet {α : Type} : List (String × α) → String → Option α
  | [], _ => none
  | p :: rest, k => if p.1 == k then some p.2 else mapGet rest k

/-- Model of JavaScript `Map.prototype.set`: replaces the entry of an
existing key in place, otherwise appends (JS insertion order). -/
def mapSet {α : Type} : List (String × α) → String → α → List (String × α)
  | [], k, v => [(k, v)]
  | p :: rest, k, v => if p.1 == k then (k, v) :: rest else p :: mapSet rest k v

/-- Model of JavaScript `Map.prototype.delete` (drops the entry of the key). -/
def mapDelete {α : Type} : List (String × α) → String → List (String × α)
  | [], _ => []
  | p :: rest, k => if p.1 == k then mapDelete rest k else p :: mapDelete rest k

/-- Keys of the modelled map, in insertion order. -/
def mapKeys {α : Type} (m : List (String × α)) : List String :=
  m.map (fun p => p.1)

theorem mapHas_delete {α : Type} (m : List (String × α)) (k : String) :
    mapHas (mapDelete m k) k = false := by
  induction m with
  | nil => rfl
  | cons p rest ih =>
    by_cases h : p.1 == k
    · simpa [mapDelete, h] using ih
    · simpa [mapDelete, mapHas, h] using ih

theorem mapGet_delete {α : Type} (m : List (String × α)) (k : String) :
    mapGet (mapDelete m k) k = none := by
  induction m with
  | nil => rfl
  | cons p rest ih =>
    by_cases h : p.1 == k
    · simpa [mapDelete, h] using ih
    · simpa [mapDelete, mapGet, h] using ih

theorem mapGet_delete_ne {α : Type} (m : List (String × α)) (k q : String)
    (hne : q ≠ k) : mapGet (mapDelete m k) q = mapGet m q := by
  induction m with
  | nil => rfl
  | cons p rest ih =>
    by_cases h : p.1 == k
    · have hpk : p.1 = k := by simpa using h
      have hpq : (p.1 == q) = false := by
        simp only [beq_eq_false_iff_ne]
        rw [hpk]; exact fun hq => hne hq.symm
      simpa [mapDelete, mapGet, h, hpq] using ih
    · by_cases hpq : p.1 == q
      · simp [mapDelete, mapGet, h, hpq]
      · simpa [mapDelete, mapGet, h, hpq] using ih

theorem mapGet_mapSet_self {α : Type} (m : List (String × α)) (k : String) (v : α) :
    mapGet (mapSet m k v) k = some v := by
  induction m with
  | nil => simp [mapSet, mapGet]
  | cons p rest ih =>
    by_cases h : p.1 == k
    · simp [mapSet, mapGet, h]
    · simpa [mapSet, mapGet, h] using ih

theorem mapGet_mapSet_ne {α : Type} (m : List (String × α)) (k q : String) (v : α)
    (hne : q ≠ k) : mapGet (mapSet m k v) q = mapGet m q := by
  have hkq : (k == q) = false := by
    simp only [beq_eq_false_iff_ne]
    exact fun hq => hne hq.symm
  induction m with
  | nil => simp [mapSet, mapGet, hkq]
  | cons p rest ih =>
    by_cases h : p.1 == k
    · have hpk : p.1 = k := by simpa using h
      have hpq : (p.1 == q) = false := by rw [hpk]; exact hkq
      simp [mapSet, mapGet, h, hpq, hkq]
    · by_cases hpq : p.1 == q
      · simp [mapSet, mapGet, h, hpq]
      · simpa [mapSet, mapGet, h, hpq] using ih

theorem mapKeys_mapSet_of_has {α : Type} (m : List (String × α)) (k : String) (v : α)
    (h : mapHas m k = true) : mapKeys (mapSet m k v) = mapKeys m := by
  induction m with
  | nil => simp [mapHas] at h
  | cons p rest ih =>
    by_cases hp : p.1 == k
    · have hpk : p.1 = k := by simpa using hp
      simp [mapSet, mapKeys, hp, hpk]
    · have hrest : mapHas rest k = true := by
        simpa [mapHas, hp] using h
      simpa [mapSet, mapKeys, hp] using ih hrest

theorem mapKeys_mapSet_of_not_has {α : Type} (m : List (String × α)) (k : String) (v : α)
    (h : mapHas m k = false) : mapKeys (mapSet m k v) = mapKeys m ++ [k] := by
  induction m with
  | nil => simp [mapSet, mapKeys]
  | cons p rest ih =>
    have hp : (p.1 == k) = false := by
      by_cases hq : p.1 == k
      · exfalso; simp [mapHas, hq] at h
      · simpa using hq
    have hrest : mapHas rest k = false := by
      simpa [mapHas, hp] using h
    simpa [mapSet, mapKeys, hp] using ih hrest

theorem not_mem_mapKeys_of_not_has {α : Type} (m : List (String × α)) (k : String)
    (h : mapHas m k = false) : k ∉ mapKeys m := by
  intro hmem
  unfold mapKeys at hmem
  rcases List.mem_map.mp hmem with ⟨p, hp, hpk⟩
  have : mapHas m k = true := by
    unfold mapHas
    rw [List.any_eq_true]
    exact ⟨p, hp, by simp [hpk]⟩
  rw [h] at this
  exact absurd this (by simp)

theorem mapKeys_nodup_mapSet {α : Type} (m : List (String × α)) (k : String) (v : α)
    (h : (mapKeys m).Nodup) : (mapKeys (mapSet m k v)).Nodup := by
  by_cases hh : mapHas m k
  · rw [mapKeys_mapSet_of_has m k v hh]; exact h
  · rw [mapKeys_mapSet_of_not_has m k v (by simpa using hh)]
    have hk : k ∉ mapKeys m := not_mem_mapKeys_of_not_has m k (by simpa using hh)
    simpa [List.nodup_append] using ⟨h, hk⟩

/-! ## UUID normalization (src/src/main/ble-server.js, `normalizeUUID`)

The source lowercases the string with `toLowerCase()` and then deletes
every hyphen with a global regex `replace`.

Strings are embedded as lists of UTF-16 code units.  `toLowerCase` is
modelled on the Basic Latin range, where JavaScript's simple case
mapping sends `A`..`Z` (65..90) to `a`..`z` (97..122) and fixes every
other code unit; the UUID alphabet (hex digits and hyphens) lies
entirely in this range.  The hyphen is code unit 45. -/

/-- Embedding of `String.prototype.toLowerCase` on one code unit. -/
def jsToLowerCode (c : Nat) : Nat :=
  if 65 ≤ c ∧ c ≤ 90 then c + 32 else c

/-- Embedding of `String.prototype.toUpperCase` on one code unit
(used only to state case-insensitivity of normalization). -/
def jsToUpperCode (c : Nat) : Nat :=
  if 97 ≤ c ∧ c ≤ 122 then c - 32 else c

/-- The code unit of the hyphen character. -/
def hyphenCode : Nat := 45

/-- Embedding of `normalizeUUID` from src/src/main/ble-server.js:
lowercase the string, then strip every hyphen. -/
def normalizeUUID (s : List Nat) : List Nat :=
  (s.map jsToLowerCode).filter (fun c => c ≠ hyphenCode)

theorem jsToLowerCode_idem (c : Nat) : jsToLowerCode (jsToLowerCode c) = jsToLowerCode c := by
  unfold jsToLowerCode
  split_ifs <;> omega

theorem jsToLowerCode_jsToUpperCode (c : Nat) :
    jsToLowerCode (jsToUpperCode c) = jsToLowerCode c := by
  unfold jsToLowerCode jsToUpperCode
  split_ifs <;> omega

theorem jsToLowerCode_hyphen_iff (c : Nat) : jsToLowerCode c = hyphenCode ↔ c = hyphenCode := by
  unfold jsToLowerCode hyphenCode
  split_ifs <;> omega

theorem map_eq_self_of_fixed {α : Type} (f : α → α) (l : List α)
    (h : ∀ a ∈ l, f a = a) : l.map f = l := by
  induction l with
  | nil => rfl
  | cons a rest ih =>
    simp only [List.map_cons]
    rw [h a (by simp), ih (fun b hb => h b (by simp [hb]))]

theorem mem_normalizeUUID {s : List Nat} {c : Nat} (h : c ∈ normalizeUUID s) :
    c ≠ hyphenCode ∧ (∃ b ∈ s, jsToLowerCode b = c) := by
  unfold normalizeUUID at h
  have h2 := List.mem_filter.mp h
  refine ⟨by simpa using h2.2, ?_⟩
  rcases List.mem_map.mp h2.1 with ⟨b, hb, hbc⟩
  exact ⟨b, hb, hbc⟩

/-- C7 — `normalizeUUID` is a total function on strings (it is defined for
every list of code units); it is idempotent; the uppercase, lowercase and
hyphenated forms of a UUID all normalize to the same canonical value; and
the canonical value is lowercase with every hyphen stripped. -/
theorem c7_normalizeUUID_total_idempotent_canonical :
    (∀ s : List Nat, normalizeUUID (normalizeUUID s) = normalizeUUID s)
    ∧ (∀ s : List Nat, normalizeUUID (s.map jsToUpperCode) = normalizeUUID s)
    ∧ (∀ s : List Nat, normalizeUUID (s.map jsToLowerCode) = normalizeUUID s)
    ∧ (∀ s : List Nat, normalizeUUID (s.filter (fun c => c ≠ hyphenCode)) = normalizeUUID s)
    ∧ (∀ s : List Nat, ∀ c ∈ normalizeUUID s, c ≠ hyphenCode ∧ jsToLowerCode c = c) := by
  have hfix : ∀ s : List Nat, ∀ c ∈ normalizeUUID s, c ≠ hyphenCode ∧ jsToLowerCode c = c := by
    intro s c hc
    rcases mem_normalizeUUID hc with ⟨hne, b, _, hbc⟩
    exact ⟨hne, by rw [← hbc, jsToLowerCode_idem]⟩
  refine ⟨?_, ?_, ?_, ?_, hfix⟩
  · intro s
    show ((normalizeUUID s).map jsToLowerCode).filter (fun c => c ≠ hyphenCode) = normalizeUUID s
    rw [map_eq_self_of_fixed jsToLowerCode (normalizeUUID s)
      (fun c hc => (hfix s c hc).2)]
    exact List.filter_eq_self.mpr (fun c hc => by simpa using (hfix s c hc).1)
  · intro s
    unfold normalizeUUID
    rw [List.map_map]
    congr 1
    apply List.map_congr_left
    intro c _
    exact jsToLowerCode_jsToUpperCode c
  · intro s
    unfold normalizeUUID
    rw [List.map_map]
    congr 1
    apply List.map_congr_left
    intro c _
    exact jsToLowerCode_idem c
  · intro s
    unfold normalizeUUID
    induction s with
    | nil => rfl
    | cons c rest ih =>
      by_cases hc : c = hyphenCode
      · have hlow : jsToLowerCode c = hyphenCode := by
          rw [hc]; exact (jsToLowerCode_hyphen_iff hyphenCode).mpr rfl
        simp only [List.filter, List.map_cons, hc]
        simpa [hlow] using ih
      · have hlow : jsToLowerCode c ≠ hyphenCode := by
          intro h; exact hc ((jsToLowerCode_hyphen_iff c).mp h)
        simp only [List.filter, List.map_cons]
        simp [hc, hlow]
        simpa using ih

theorem mapHas_of_mapGet_some {α : Type} {m : List (String × α)} {k : String} {v : α}
    (h : mapGet m k = some v) : mapHas m k = true := by
  induction m with
  | nil => simp [mapGet] at h
  | cons p rest ih =>
    by_cases hp : p.1 == k
    · simp [mapHas, hp]
    · simp only [mapGet, hp, if_neg] at h
      simp only [mapHas, List.any_cons]
      rw [mapHas] at ih
      simp [hp, ih (by simpa [hp] using h)]

/-! ## BLEServer (src/src/main/ble-server.js)

The registry of the main BLE server: `discoveredDevices` and
`connectedDevices` maps from peripheral id to a `peripheral, info` entry;
only the `info` part carries registry state. -/

/-- Advertisement data of a noble peripheral as consumed by the discovery
handlers: `peripheral.id`, `peripheral.advertisement.localName` (`none`
models a JS-falsy name, i.e. undefined or empty) and `peripheral.rssi`. -/
structure Peripheral where
  id : String
  localName : Option String
  rssi : Int
deriving DecidableEq

namespace BLEServer

/-- The `deviceInfo` record created by `BLEServer.handleDiscoveredDevice`:
`id`, `name`, `connected`; the `rssi` field is added only on re-discovery
(`none` models the JS property being absent until then). -/
structure DeviceInfo where
  id : String
  name : String
  connected : Bool
  rssi : Option Int
deriving DecidableEq

/-- State of `BLEServer`: the two registry maps. -/
structure State where
  discoveredDevices : List (String × DeviceInfo)
  connectedDevices : List (String × DeviceInfo)
deriving DecidableEq

/-- Events emitted by `BLEServer` through its EventEmitter interface. -/
inductive Event where
  | deviceDiscovered (info : DeviceInfo)
  | deviceUpdated (info : DeviceInfo)
  | deviceConnected (info : DeviceInfo)
  | deviceDisconnected (info : DeviceInfo)
deriving DecidableEq

/-- Embedding of `BLEServer.handleDiscoveredDevice`
(src/src/main/ble-server.js lines 74-109).  A never-seen id is added to
`discoveredDevices` with `connected: false` (name defaulting to
`Unknown Device` when the advertised name is falsy) and `deviceDiscovered`
is emitted; a known id has only its `rssi` field updated and
`deviceUpdated` is emitted.  The registration of the per-peripheral
`connect` and `disconnect` listeners is radio I/O and carries no registry
state. -/
def handleDiscoveredDevice (s : State) (p : Peripheral) : State × List Event :=
  if mapHas s.discoveredDevices p.id = false then
    let info : DeviceInfo :=
      { id := p.id, name := p.localName.getD "Unknown Device",
        connected := false, rssi := none }
    ({ s with discoveredDevices := mapSet s.discoveredDevices p.id info },
     [Event.deviceDiscovered info])
  else
    match mapGet s.discoveredDevices p.id with
    | none => (s, [])
    | some dev =>
      let dev2 := { dev with rssi := some p.rssi }
      ({ s with discoveredDevices := mapSet s.discoveredDevices p.id dev2 },
       [Event.deviceUpdated dev2])

/-- A whole sequence of discovery callbacks, folded over
`handleDiscoveredDevice`. -/
def runDiscoveries (s : State) (ps : List Peripheral) : State :=
  ps.foldl (fun acc p => (handleDiscoveredDevice acc p).1) s

/-- Embedding of `BLEServer.handleDeviceDisconnect`
(src/src/main/ble-server.js lines 111-131), the common cleanup invoked by
all three disconnect paths: the noble `disconnect` event (line 55-58), the
per-peripheral `disconnect` event (line 96-99) and the liveness check
`checkConnections` (lines 301-315).  It sets `info.connected = false`,
deletes the id from `connectedDevices` AND from `discoveredDevices`, and
emits `deviceDisconnected` with the mutated info.  (The subsequent scan
restart is radio I/O.) -/
def handleDeviceDisconnect (s : State) (deviceId : String) : State × List Event :=
  match mapGet s.discoveredDevices deviceId with
  | none => (s, [])
  | some dev =>
    let dev2 := { dev with connected := false }
    ({ discoveredDevices := mapDelete s.discoveredDevices deviceId,
       connectedDevices := mapDelete s.connectedDevices deviceId },
     [Event.deviceDisconnected dev2])

end BLEServer

/-! ## BLEServer snapshot variant (src/unnamed/part_004)

This snapshot filters discoveries by the exact name `Cosmo`, stores `rssi`
at creation, applies a 5 dBm threshold on re-discovery, and its
`connectToDevice` explicitly disconnects an already-connected peripheral
before starting a fresh connection attempt. -/

namespace P4

/-- Device info record of the part_004 snapshot (`rssi` set at creation). -/
structure DeviceInfo where
  id : String
  name : String
  connected : Bool
  rssi : Int
deriving DecidableEq

/-- A `peripheral, info` map entry; `peripheralState` models
`device.peripheral.state` (the noble connection state string). -/
structure DeviceEntry where
  info : DeviceInfo
  peripheralState : String
deriving DecidableEq

/-- State of the part_004 `BLEServer`. -/
structure State where
  discoveredDevices : List (String × DeviceEntry)
  connectedDevices : List (String × DeviceEntry)
deriving DecidableEq

/-- Events emitted by the part_004 `BLEServer`. -/
inductive Event where
  | deviceFound (info : DeviceInfo)
  | deviceUpdated (info : DeviceInfo)
  | deviceConnected (info : DeviceInfo)
  | deviceDisconnected (info : DeviceInfo)
deriving DecidableEq

/-- Embedding of `BLEServer.handleDiscoveredDevice` (src/unnamed/part_004
lines 141-193).  Only peripherals whose advertised name is exactly `Cosmo`
are handled; a new id is added with `connected: false` and its current
rssi, emitting `deviceFound`; a known id has its `rssi` updated (and
`deviceUpdated` emitted) only when the change exceeds 5 dBm, and nothing
else is touched. -/
def handleDiscoveredDevice (s : State) (p : Peripheral) : State × List Event :=
  if p.localName ≠ some "Cosmo" then (s, [])
  else if mapHas s.discoveredDevices p.id = false then
    let info : DeviceInfo :=
      { id := p.id, name := (p.localName.getD "Unknown Device"),
        connected := false, rssi := p.rssi }
    ({ s with discoveredDevices :=
        mapSet s.discoveredDevices p.id { info := info, peripheralState := "disconnected" } },
     [Event.deviceFound info])
  else
    match mapGet s.discoveredDevices p.id with
    | none => (s, [])
    | some dev =>
      if 5 < (dev.info.rssi - p.rssi).natAbs then
        let dev2 := { dev with info := { dev.info with rssi := p.rssi } }
        ({ s with discoveredDevices := mapSet s.discoveredDevices p.id dev2 },
         [Event.deviceUpdated dev2.info])
      else (s, [])

/-- A whole sequence of discovery callbacks for the part_004 snapshot. -/
def runDiscoveries (s : State) (ps : List Peripheral) : State :=
  ps.foldl (fun acc p => (handleDiscoveredDevice acc p).1) s

/-- Radio actions performed by the part_004 `connectToDevice` before and at
the connection attempt. -/
inductive ConnAction where
  | disconnectExisting
  | waitBeforeReconnect
  | stopScanning
  | connectAttempt
deriving DecidableEq

/-- Embedding of the synchronous decision prefix of
`BLEServer.connectToDevice` (src/unnamed/part_004 lines 195-231): an
unknown id throws `Device not found`; for a known id whose peripheral
state is `connected` the code FIRST disconnects the existing link and
waits one second, then (in every case) stops scanning and starts a fresh
connection attempt (hard-bounded by a 10 s timeout). -/
def connectToDevicePre (s : State) (deviceId : String) : Except String (List ConnAction) :=
  match mapGet s.discoveredDevices deviceId with
  | none => .error "Device not found"
  | some device =>
    let pre := if device.peripheralState == "connected"
      then [ConnAction.disconnectExisting, ConnAction.waitBeforeReconnect]
      else []
    .ok (pre ++ [ConnAction.stopScanning, ConnAction.connectAttempt])

end P4

/-! ## BLEManager (src/unnamed/part_010)

The noble-based manager holding a single `devices` map whose values carry
the full live status of one peripheral. -/

namespace BLEManager

/-- One GATT characteristic handle (only its uuid matters to the embedding). -/
structure Characteristic where
  uuid : String
deriving DecidableEq

/-- A resolved GATT service: its characteristics list
(`deviceInfo.service.characteristics`). -/
structure ServiceRec where
  characteristics : List Characteristic
deriving DecidableEq

/-- The device record created by `BLEManager.handleDiscoveredDevice`
(src/unnamed/part_010 lines 97-110).  `service` is `none` because the
part_010 snapshot never assigns a `service` property to the record
(`deviceInfo.service` is undefined); `setColor`/`setBrightness` read it. -/
structure Device where
  id : String
  name : String
  connected : Bool
  connecting : Bool
  serial : Option String
  firmware : Option String
  batteryLevel : Option Int
  sensorValue : Nat
  buttonState : Bool
  pressValue : Nat
  rssi : Int
  service : Option ServiceRec
deriving DecidableEq

/-- Events emitted by `BLEManager`.  `deviceUpdateBrief` is the small
`id, name, connected` payload emitted on the disconnect path;
`deviceUpdate` carries the full device record. -/
inductive Event where
  | deviceDisconnected (id : String) (name : String)
  | deviceUpdateBrief (id : String) (name : String) (connected : Bool)
  | buttonEvent (deviceId : String) (pressed : Bool) (value : Nat)
  | deviceUpdate (device : Device)
  | deviceConnected (device : Device)
deriving DecidableEq

/-- Embedding of `BLEManager.handleDeviceDisconnection`
(src/unnamed/part_010 lines 257-272); the noble `disconnect` handler
(lines 58-74) inlines the identical logic.  If the id is known: set
`device.connected = false`, emit `deviceDisconnected` with id and name,
DELETE the record from the `devices` map, and emit a brief `deviceUpdate`
with `connected: false`. -/
def handleDeviceDisconnection (devices : List (String × Device)) (uuid : String) :
    List (String × Device) × List Event :=
  match mapGet devices uuid with
  | none => (devices, [])
  | some device =>
    (mapDelete devices uuid,
     [Event.deviceDisconnected uuid device.name,
      Event.deviceUpdateBrief uuid device.name false])

/-- Model of JS `String.prototype.startsWith` on the character lists of
the two strings (Lean's own `String.startsWith` does not reduce inside
the kernel). -/
def strStartsWith (s pre : String) : Bool := List.isPrefixOf pre.data s.data

/-- Model of the JS optional-chained name filter
`peripheral.advertisement.localName?.startsWith('Cosmo')`. -/
def isCosmoName : Option String → Bool
  | none => false
  | some n => strStartsWith n "Cosmo"

/-- Synchronous outcome of `BLEManager.handleDiscoveredDevice`. -/
inductive DiscoverOutcome where
  | ignoredNonCosmo
  | skippedBusy
  | startedConnect
deriving DecidableEq

/-- Embedding of the synchronous part of `BLEManager.handleDiscoveredDevice`
(src/unnamed/part_010 lines 77-111): peripherals not named `Cosmo...` are
ignored; a known device that is `connected` or `connecting` is skipped
(the map is left untouched and no second connection attempt starts);
otherwise a fresh record with `connecting: true` is stored and the
asynchronous connection sequence begins.  `p.id` embeds
`peripheral.uuid`. -/
def handleDiscoveredDevice (devices : List (String × Device)) (p : Peripheral) :
    List (String × Device) × DiscoverOutcome :=
  if isCosmoName p.localName = false then (devices, DiscoverOutcome.ignoredNonCosmo)
  else
    let busy := match mapGet devices p.id with
      | some d => d.connected || d.connecting
      | none => false
    if busy then (devices, DiscoverOutcome.skippedBusy)
    else
      let device : Device :=
        { id := p.id, name := p.localName.getD "", connected := false,
          connecting := true, serial := none, firmware := none,
          batteryLevel := none, sensorValue := 0, buttonState := false,
          pressValue := 0, rssi := p.rssi, service := none }
      (mapSet devices p.id device, DiscoverOutcome.startedConnect)

/-- Embedding of `BLEManager.handleButtonStatus` (src/unnamed/part_010
lines 228-245).  `data[0] === 1` on a missing byte compares undefined with
1 and yields false; `data[1] || 0` yields 0 for a missing byte.  The
function never throws: it stores the decoded (or defaulted) values and
emits `buttonEvent` and a full `deviceUpdate`. -/
def handleButtonStatus (devices : List (String × Device)) (deviceId : String)
    (data : List Nat) : List (String × Device) × List Event :=
  match mapGet devices deviceId with
  | none => (devices, [])
  | some device =>
    let buttonState := data.get? 0 == some 1
    let pressValue := (data.get? 1).getD 0
    let device2 := { device with buttonState := buttonState, pressValue := pressValue }
    (mapSet devices deviceId device2,
     [Event.buttonEvent deviceId buttonState pressValue, Event.deviceUpdate device2])

/-- Embedding of Node's `Buffer.prototype.readUInt16LE(offset)`: reads the
little-endian 16-bit value at `offset`, THROWING a `RangeError` when the
buffer holds fewer than `offset + 2` bytes. -/
def readUInt16LE (data : List Nat) (offset : Nat) : Except String Nat :=
  if offset + 1 < data.length then
    Except.ok ((data.getD offset 0) + 256 * (data.getD (offset + 1) 0))
  else Except.error "RangeError"

/-- Embedding of `BLEManager.handleSensorData` (src/unnamed/part_010
lines 247-255): reads `data.readUInt16LE(0)` with NO length guard, so a
payload shorter than 2 bytes makes the notification callback throw
(`Except.error`); otherwise the sensor value is stored and a full
`deviceUpdate` emitted. -/
def handleSensorData (devices : List (String × Device)) (deviceId : String)
    (data : List Nat) : Except String (List (String × Device) × List Event) :=
  match mapGet devices deviceId with
  | none => Except.ok (devices, [])
  | some device =>
    match readUInt16LE data 0 with
    | Except.error e => Except.error e
    | Except.ok sensorValue =>
      let device2 := { device with sensorValue := sensorValue }
      Except.ok (mapSet devices deviceId device2, [Event.deviceUpdate device2])

/-- The Cosmo command characteristic UUID as stored by part_010. -/
def COMMAND_CHARACTERISTIC_UUID : String := "000015281212efde1523785feabcd123"

/-- A GATT write: the bytes of the written frame and noble's
`withoutResponse` flag (`writeAsync(command, true)` writes without
requiring acknowledgment). -/
structure GattWrite where
  bytes : List Nat
  withoutResponse : Bool
deriving DecidableEq

/-- JS `Buffer.from` coerces each integer to an unsigned 8-bit value. -/
def toUint8 (v : Int) : Nat := (v % 256).toNat

/-- Embedding of `Buffer.from([..])` on a list of JS numbers. -/
def bufferFrom (vs : List Int) : List Nat := vs.map toUint8

/-- Embedding of `BLEManager.setColor` (src/unnamed/part_010 lines
379-400): unknown device throws `Device not found`; an absent `service`
property makes the characteristic lookup throw a TypeError; a missing
command characteristic throws; otherwise the frame
`Buffer.from([2, r, g, b, mode])` is written with
`writeAsync(command, true)` — without requiring acknowledgment. -/
def setColor (devices : List (String × Device)) (deviceId : String)
    (r g b mode : Int) : Except String GattWrite :=
  match mapGet devices deviceId with
  | none => Except.error "Device not found"
  | some deviceInfo =>
    match deviceInfo.service with
    | none => Except.error "TypeError: cannot read characteristics of undefined"
    | some service =>
      match service.characteristics.find?
          (fun c => c.uuid == COMMAND_CHARACTERISTIC_UUID) with
      | none => Except.error "Command characteristic not found"
      | some _ =>
        Except.ok { bytes := bufferFrom [2, r, g, b, mode], withoutResponse := true }

/-- Embedding of `BLEManager.setBrightness` (src/unnamed/part_010 lines
402-423), the luminosity writer; its `delay` parameter defaults to 1 when
the caller supplies none.  Same lookup/throw structure as `setColor`; the
frame is `Buffer.from([1, intensity, delay])` written with
`writeAsync(command, true)`. -/
def setBrightness (devices : List (String × Device)) (deviceId : String)
    (intensity delay : Int) : Except String GattWrite :=
  match mapGet devices deviceId with
  | none => Except.error "Device not found"
  | some deviceInfo =>
    match deviceInfo.service with
    | none => Except.error "TypeError: cannot read characteristics of undefined"
    | some service =>
      match service.characteristics.find?
          (fun c => c.uuid == COMMAND_CHARACTERISTIC_UUID) with
      | none => Except.error "Command characteristic not found"
      | some _ =>
        Except.ok { bytes := bufferFrom [1, intensity, delay], withoutResponse := true }

end BLEManager

/-! ## Second BLEServer snapshot (src/src/main/ble-server.js lines 320-764)

Only its notification decoder `handleCharacteristicData` (lines 589-646)
is claim-relevant. -/

namespace BS2

/-- Characteristic UUIDs from src/src/common/constants.js
(`BLE_CHARACTERISTICS`). -/
def SENSOR_UUID : String := "00001524-1212-efde-1523-785feabcd123"

/-- Button-status characteristic UUID (constants.js). -/
def BUTTON_STATUS_UUID : String := "00001525-1212-efde-1523-785feabcd123"

/-- Battery-level characteristic UUID (constants.js). -/
def BATTERY_LEVEL_UUID : String := "00001529-1212-efde-1523-785feabcd123"

/-- The `info` record of the second snapshot; `sensorValue`, `forceValue`
and `batteryLevel` become JS undefined (`none`) when written from a
missing byte. -/
structure DeviceInfo where
  id : String
  name : String
  sensorValue : Option Nat
  forceValue : Option Nat
  batteryLevel : Option Nat
deriving DecidableEq

/-- Events emitted by `handleCharacteristicData`.  The
`characteristicChanged` payload (normalized uuid and `Array.from(data)`)
and the `deviceUpdated` payload (`getAllDevices()` plus a per-device info
object) are elided: they carry no registry state. -/
inductive Event where
  | characteristicChanged (deviceId : String)
  | buttonEvent (deviceId : String) (state : String) (force : Nat)
  | deviceUpdated
deriving DecidableEq

/-- Embedding of `BLEServer.handleCharacteristicData`
(src/src/main/ble-server.js lines 589-646, second snapshot).  The switch
compares the raw uuid against the constants; the sensor and battery cases
store `data[0]` (undefined — `none` — on an empty payload), the button
case stores `data[1] || 0` as the force value and reports
`pressed`/`released` from `data[0] === 0`; every path ends by emitting
`deviceUpdated`.  No path throws and no path discards a short payload. -/
def handleCharacteristicData (devices : List (String × DeviceInfo)) (deviceId : String)
    (characteristicUuid : String) (data : List Nat) :
    List (String × DeviceInfo) × List Event :=
  match mapGet devices deviceId with
  | none => (devices, [])
  | some device =>
    if characteristicUuid == SENSOR_UUID then
      let device2 := { device with sensorValue := data.get? 0 }
      (mapSet devices deviceId device2,
       [Event.characteristicChanged deviceId, Event.deviceUpdated])
    else if characteristicUuid == BUTTON_STATUS_UUID then
      let forceValue := (data.get? 1).getD 0
      let device2 := { device with forceValue := some forceValue }
      (mapSet devices deviceId device2,
       [Event.buttonEvent deviceId
          (if data.get? 0 == some 0 then "pressed" else "released") forceValue,
        Event.characteristicChanged deviceId, Event.deviceUpdated])
    else if characteristicUuid == BATTERY_LEVEL_UUID then
      let device2 := { device with batteryLevel := data.get? 0 }
      (mapSet devices deviceId device2,
       [Event.characteristicChanged deviceId, Event.deviceUpdated])
    else (devices, [Event.deviceUpdated])

end BS2

/-! ## The stub command methods of the wired backend

`WSServer.initialize` (src/src/main/ws-server.js lines 1-222) talks to
`this.bleServer`, the third BLEServer snapshot (src/src/main/ble-server.js
lines 766-1049).  That snapshot's `setColor` (lines 1028-1031) and
`setLuminosity` (lines 1033-1036) methods have EMPTY bodies. -/

namespace BS3

/-- Embedding of `bleServer.setColor(deviceId, rgb)`
(src/src/main/ble-server.js lines 1028-1031): the body is only a comment
-- no GATT write is performed. -/
def setColor (_deviceId : String) (_rgb : List Int) : List BLEManager.GattWrite := []

/-- Embedding of `bleServer.setLuminosity(deviceId, value)`
(src/src/main/ble-server.js lines 1033-1036): the body is only a comment
-- no GATT write is performed. -/
def setLuminosity (_deviceId : String) (_value : Int) : List BLEManager.GattWrite := []

end BS3

/-! ## WSServer command paths (src/src/main/ws-server.js lines 152-203)

The `setColor` and `setLuminosity` cases of `handleMessage` clamp the
client-supplied values and forward them to `this.bleServer` -- the third
BLEServer snapshot above, whose command methods are empty stubs, so the
clamped values are never framed or written.  (`BLEManager.setColor` and
`setBrightness` of part_010, which do frame commands, are reached only by
the non-clamping snapshot handlers: ws-server.js lines 439-463 and
part_002/part_003 pass the raw client values.) -/

namespace WSServer

/-- Embedding of the per-component clamp
`Math.max(0, Math.min(4, v))` (ws-server.js line 183). -/
def clampColorComponent (v : Int) : Int := max 0 (min 4 v)

/-- Embedding of the intensity clamp
`Math.max(5, Math.min(64, data.data[0]))` (ws-server.js line 192). -/
def clampIntensity (v : Int) : Int := max 5 (min 64 v)

/-- Embedding of the `setColor` case of `WSServer.handleMessage`
(ws-server.js lines 178-185): a missing deviceId or a data array whose
length is not 3 is answered with an `Invalid color data` error and makes
no BLE call (`none`); otherwise each component is clamped into [0,4] and
the clamped ARRAY is passed to the stub
`this.bleServer.setColor(data.deviceId, rgb)`.  The result pairs the
clamped array with the GATT writes performed (none: the stub is empty). -/
def handleSetColor (deviceId : Option String) (data : Option (List Int)) :
    Option (List Int × List BLEManager.GattWrite) :=
  match deviceId, data with
  | some did, some [x, y, z] =>
    let rgb := [clampColorComponent x, clampColorComponent y, clampColorComponent z]
    some (rgb, BS3.setColor did rgb)
  | _, _ => none

/-- Embedding of the `setLuminosity` case of `WSServer.handleMessage`
(ws-server.js lines 187-194): a missing deviceId or a data array whose
length is not 1 is answered with an `Invalid luminosity data` error and
makes no BLE call (`none`); otherwise the intensity is clamped into
[5,64] and passed to the stub
`this.bleServer.setLuminosity(data.deviceId, luminosity)`.  The result
pairs the clamped value with the GATT writes performed (none). -/
def handleSetLuminosity (deviceId : Option String) (data : Option (List Int)) :
    Option (List Int × List BLEManager.GattWrite) :=
  match deviceId, data with
  | some did, some [x] =>
    let lum := clampIntensity x
    some ([lum], BS3.setLuminosity did lum)
  | _, _ => none

/-! ### Heartbeat loop (ws-server.js lines 80-95)

Each client starts with `isAlive = true` (line 81) and its `pong` handler
sets `isAlive = true` (line 82).  Every 30 seconds the interval handler
visits each client: one whose `isAlive` is false is deleted from the
broadcast set and terminated; otherwise `isAlive` is cleared and a ping
is sent (lines 86-95). -/

/-- The heartbeat interval of `WSServer.initialize`: 30000 ms. -/
def pingIntervalMs : Nat := 30000

/-- Heartbeat-relevant happenings for one client: a pong frame arriving,
or one tick of the 30-second ping interval. -/
inductive HBEvent where
  | pong
  | tick
deriving DecidableEq

/-- One heartbeat step for one client.  The state is `none` once the
client has been terminated and removed from the broadcast set, and
`some isAlive` otherwise.  The returned `Nat` counts pings sent to the
client during the step. -/
def hbStep : Option Bool → HBEvent → Option Bool × Nat
  | none, _ => (none, 0)
  | some _, HBEvent.pong => (some true, 0)
  | some a, HBEvent.tick => if a then (some false, 1) else (none, 0)

/-- A run of the heartbeat over a sequence of events, accumulating the
number of pings sent. -/
def hbRun (s : Option Bool) (es : List HBEvent) : Option Bool × Nat :=
  es.foldl (fun acc e =>
    ((hbStep acc.1 e).1, acc.2 + (hbStep acc.1 e).2)) (s, 0)

/-! ### Broadcast fan-out (ws-server.js lines 130-150) -/

/-- WebSocket transport readyState; `opened` models `WebSocket.OPEN`. -/
inductive ReadyState where
  | connecting
  | opened
  | closing
  | closed
deriving DecidableEq

/-- One client connection as seen by the fan-out: its transport state and
whether its `ws.send` throws (an environment fact). -/
structure Client where
  readyState : ReadyState
  sendThrows : Bool
deriving DecidableEq

/-- What happened to one client during a broadcast. -/
inductive SendOutcome where
  | sent
  | skipped
  | errorCaught
deriving DecidableEq

/-- Embedding of `WSServer.sendMessage` (ws-server.js lines 130-140):
serializes and sends only when the transport readyState is OPEN, and the
whole body sits in a try/catch, so a throwing `ws.send` is logged and
swallowed. -/
def sendMessage (c : Client) : SendOutcome :=
  if c.readyState = ReadyState.opened then
    (if c.sendThrows then SendOutcome.errorCaught else SendOutcome.sent)
  else SendOutcome.skipped

/-- Embedding of `WSServer.broadcast` (ws-server.js lines 142-150): falsy
data is dropped; otherwise every client of `this.clients` is visited in
order, those whose readyState is OPEN are handed to `sendMessage`, the
others are passed over.  The function only reads the client set — clients
are removed from it elsewhere (close/error handlers and the heartbeat). -/
def broadcast (clients : List Client) (hasData : Bool) : List SendOutcome :=
  if hasData then
    clients.map (fun c =>
      if c.readyState = ReadyState.opened then sendMessage c else SendOutcome.skipped)
  else []

/-! ### Connection handler (ws-server.js lines 47-63)

On a new client connection the server adds the socket to the set, sends
`type: connected`, and then sends a `devicesList` snapshot built from
`bleServer.getConnectedDevices()` (third BLEServer snapshot,
src/src/main/ble-server.js lines 1018-1040: the cleaned known devices
filtered to the connected ones). -/

/-- A cleaned device record as produced by `getCleanDevices`. -/
structure CleanDevice where
  id : String
  name : String
  connected : Bool
  rssi : Int
  lastSeen : Nat
deriving DecidableEq

/-- Embedding of `bleServer.getCleanDevices` (lines 1018-1026): the values
of the `knownDevices` map, cleaned to their client-visible fields. -/
def getCleanDevices (knownDevices : List (String × CleanDevice)) : List CleanDevice :=
  knownDevices.map (fun p => p.2)

/-- Embedding of `bleServer.getConnectedDevices` (lines 1038-1040): the
cleaned devices filtered to those with `connected` set. -/
def getConnectedDevices (knownDevices : List (String × CleanDevice)) : List CleanDevice :=
  (getCleanDevices knownDevices).filter (fun d => d.connected)

/-- Messages the connection handler sends to the new client, in order. -/
inductive OutMsg where
  | connectedMsg
  | devicesList (devices : List CleanDevice)
deriving DecidableEq

/-- Embedding of the `connection` handler of `WSServer.initialize`
(ws-server.js lines 47-63): first the `type: connected` greeting, then a
full `devicesList` snapshot of the currently connected devices. -/
def onClientConnection (knownDevices : List (String × CleanDevice)) : List OutMsg :=
  [OutMsg.connectedMsg, OutMsg.devicesList (getConnectedDevices knownDevices)]

end WSServer

/-! ## WSServer snapshot variant (src/unnamed/part_002)

This snapshot's connection handler sends no `connected` greeting, and
its `broadcast` has no try/catch around the per-client send. -/

namespace P2

/-- The client-visible device fields the part_002 server sends
(lines 41-52). -/
structure ClientDevice where
  id : String
  name : String
  serial : Option String
  firmware : Option String
  batteryLevel : Option Int
  sensorValue : Nat
  buttonState : Bool
  pressValue : Nat
  rssi : Int
  connected : Bool
deriving DecidableEq

/-- The field selection applied to each BLEManager device record
(src/unnamed/part_002 lines 41-52). -/
def cleanDevice (d : BLEManager.Device) : ClientDevice :=
  { id := d.id, name := d.name, serial := d.serial, firmware := d.firmware,
    batteryLevel := d.batteryLevel, sensorValue := d.sensorValue,
    buttonState := d.buttonState, pressValue := d.pressValue,
    rssi := d.rssi, connected := d.connected }

/-- Messages the part_002 server could send to a new client.  The
`connectedGreeting` constructor exists so that its ABSENCE from what the
handler actually sends is expressible. -/
inductive OutMsg where
  | connectedGreeting
  | deviceList (devices : List ClientDevice)
deriving DecidableEq

/-- Embedding of `WSServer.handleConnection` (src/unnamed/part_002 lines
36-57): the one and only message sent to the new client is a `deviceList`
snapshot of ALL known devices (each carrying its `connected` flag); no
`connected` greeting is sent. -/
def handleConnection (devices : List (String × BLEManager.Device)) : List OutMsg :=
  [OutMsg.deviceList ((devices.map (fun p => p.2)).map cleanDevice)]

/-- Embedding of `WSServer.broadcast` (src/unnamed/part_002 lines 28-34):
each client with readyState OPEN is sent the message with NO try/catch,
so a throwing send escapes the `forEach`: clients visited earlier keep
the message, later clients are never visited.  Returns the outcomes of
the visited clients and whether an exception escaped. -/
def broadcast : List WSServer.Client → List WSServer.SendOutcome × Bool
  | [] => ([], false)
  | c :: rest =>
    if c.readyState = WSServer.ReadyState.opened then
      if c.sendThrows then ([], true)
      else
        (WSServer.SendOutcome.sent :: (broadcast rest).1, (broadcast rest).2)
    else
      (WSServer.SendOutcome.skipped :: (broadcast rest).1, (broadcast rest).2)

end P2

/-! ## Concrete states used by counterexamples and witnesses -/

/-- A connected demo device in the BLEServer registry. -/
def bsDemoInfo : BLEServer.DeviceInfo :=
  { id := "d1", name := "Cosmo", connected := true, rssi := none }

/-- A BLEServer registry holding the single connected device `d1`. -/
def bsDemo : BLEServer.State :=
  { discoveredDevices := [("d1", bsDemoInfo)], connectedDevices := [("d1", bsDemoInfo)] }

/-- A connected demo device in the BLEManager registry. -/
def mgrDemoDevice : BLEManager.Device :=
  { id := "m1", name := "Cosmo", connected := true, connecting := false,
    serial := none, firmware := none, batteryLevel := none,
    sensorValue := 0, buttonState := false, pressValue := 0,
    rssi := -50, service := none }

/-- A BLEManager devices map holding the single connected device `m1`. -/
def mgrDemo : List (String × BLEManager.Device) := [("m1", mgrDemoDevice)]

/-- A demo device of the second BLEServer snapshot. -/
def bs2DemoInfo : BS2.DeviceInfo :=
  { id := "b1", name := "Cosmo", sensorValue := some 3, forceValue := none,
    batteryLevel := none }

/-- A registry of the second BLEServer snapshot holding `b1`. -/
def bs2Demo : List (String × BS2.DeviceInfo) := [("b1", bs2DemoInfo)]

/-! ## C1 — disconnect handling and the registry record -/

/-- C1 counterexample — the claim says a disconnect leaves the device
record in the registry map with `connected = false` and that no
disconnect path removes the record.  On a registry holding the connected
device `d1`, processing a disconnect leaves NO record: the map lookup
returns undefined afterwards, in the BLEServer registry
(`handleDeviceDisconnect` deletes from `discoveredDevices`) and in the
BLEManager registry (`handleDeviceDisconnection` deletes from
`devices`). -/
theorem c1_counterexample_record_deleted :
    mapGet (BLEServer.handleDeviceDisconnect bsDemo "d1").1.discoveredDevices "d1" = none
    ∧ mapHas (BLEServer.handleDeviceDisconnect bsDemo "d1").1.discoveredDevices "d1" = false
    ∧ mapGet (BLEManager.handleDeviceDisconnection mgrDemo "m1").1 "m1" = none := by
  refine ⟨?_, ?_, ?_⟩ <;> rfl

/-- C1 (amended) — processing a disconnect for a registered id sets the
record's `connected` flag to false (visible in the emitted
`deviceDisconnected` event) but then DELETES the record from the registry
map: `BLEServer.handleDeviceDisconnect` removes the id from both
`discoveredDevices` and `connectedDevices`, and
`BLEManager.handleDeviceDisconnection` removes the id from `devices`. -/
theorem c1_disconnect_clears_flag_then_deletes_record :
    (∀ (s : BLEServer.State) (id : String) (dev : BLEServer.DeviceInfo),
      mapGet s.discoveredDevices id = some dev →
      mapGet (BLEServer.handleDeviceDisconnect s id).1.discoveredDevices id = none
      ∧ mapGet (BLEServer.handleDeviceDisconnect s id).1.connectedDevices id = none
      ∧ (BLEServer.handleDeviceDisconnect s id).2
          = [BLEServer.Event.deviceDisconnected { dev with connected := false }])
  ∧ (∀ (devices : List (String × BLEManager.Device)) (uuid : String)
       (dev : BLEManager.Device),
      mapGet devices uuid = some dev →
      mapGet (BLEManager.handleDeviceDisconnection devices uuid).1 uuid = none
      ∧ (BLEManager.handleDeviceDisconnection devices uuid).2
          = [BLEManager.Event.deviceDisconnected uuid dev.name,
             BLEManager.Event.deviceUpdateBrief uuid dev.name false]) := by
  constructor
  · intro s id dev h
    simp only [BLEServer.handleDeviceDisconnect, h]
    exact ⟨mapGet_delete _ _, mapGet_delete _ _, trivial⟩
  · intro devices uuid dev h
    simp only [BLEManager.handleDeviceDisconnection, h]
    exact ⟨mapGet_delete _ _, trivial⟩

/-- Witness for the amended C1 theorem at the concrete registries. -/
theorem c1_disconnect_witness :
    mapGet (BLEServer.handleDeviceDisconnect bsDemo "d1").1.connectedDevices "d1" = none
    ∧ (BLEManager.handleDeviceDisconnection mgrDemo "m1").2
        = [BLEManager.Event.deviceDisconnected "m1" "Cosmo",
           BLEManager.Event.deviceUpdateBrief "m1" "Cosmo" false] :=
  ⟨(c1_disconnect_clears_flag_then_deletes_record.1 bsDemo "d1" bsDemoInfo rfl).2.1,
   (c1_disconnect_clears_flag_then_deletes_record.2 mgrDemo "m1" mgrDemoDevice rfl).2⟩

/-! ## C2 — decoding short notification payloads -/

/-- C2 counterexample — the claim says every decoding function terminates
normally on every payload, logging and discarding short ones.  For the
known device `m1` and the empty sensor payload,
`BLEManager.handleSensorData` does not terminate normally: the unguarded
`readUInt16LE(0)` throws a RangeError out of the notification callback. -/
theorem c2_counterexample_sensor_crash :
    BLEManager.handleSensorData mgrDemo "m1" [] = Except.error "RangeError" := by
  rfl

/-- C2 (amended) — `handleButtonStatus` (BLEManager) and
`handleCharacteristicData` (second BLEServer snapshot) terminate normally
on every payload, but a short payload is neither logged nor discarded:
the state is updated with JS default values for the missing bytes
(`false`/`0`/undefined) and the usual events are emitted.
`BLEManager.handleSensorData` throws a RangeError whenever the device is
known and the payload is shorter than 2 bytes, and succeeds otherwise. -/
theorem c2_short_payload_decoding :
    (∀ (devices : List (String × BLEManager.Device)) (id : String) (data : List Nat)
       (dev : BLEManager.Device),
       mapGet devices id = some dev → data.length < 2 →
       BLEManager.handleSensorData devices id data = Except.error "RangeError")
  ∧ (∀ (devices : List (String × BLEManager.Device)) (id : String) (data : List Nat)
       (dev : BLEManager.Device),
       mapGet devices id = some dev → 2 ≤ data.length →
       BLEManager.handleSensorData devices id data
         = Except.ok
             (mapSet devices id
               { dev with sensorValue := data.getD 0 0 + 256 * data.getD 1 0 },
              [BLEManager.Event.deviceUpdate
               { dev with sensorValue := data.getD 0 0 + 256 * data.getD 1 0 }]))
  ∧ (∀ (devices : List (String × BLEManager.Device)) (id : String)
       (dev : BLEManager.Device),
       mapGet devices id = some dev →
       BLEManager.handleButtonStatus devices id []
         = (mapSet devices id { dev with buttonState := false, pressValue := 0 },
            [BLEManager.Event.buttonEvent id false 0,
             BLEManager.Event.deviceUpdate
               { dev with buttonState := false, pressValue := 0 }]))
  ∧ (∀ (devices : List (String × BS2.DeviceInfo)) (id : String)
       (dev : BS2.DeviceInfo),
       mapGet devices id = some dev →
       BS2.handleCharacteristicData devices id BS2.SENSOR_UUID []
         = (mapSet devices id { dev with sensorValue := none },
            [BS2.Event.characteristicChanged id, BS2.Event.deviceUpdated])) := by
  refine ⟨?_, ?_, ?_, ?_⟩
  · intro devices id data dev h hlen
    simp only [BLEManager.handleSensorData, h, BLEManager.readUInt16LE]
    rw [if_neg (by omega)]
  · intro devices id data dev h hlen
    simp only [BLEManager.handleSensorData, h, BLEManager.readUInt16LE]
    rw [if_pos (by omega)]
  · intro devices id dev h
    simp only [BLEManager.handleButtonStatus, h]
    rfl
  · intro devices id dev h
    simp only [BS2.handleCharacteristicData, h]
    rfl

/-- Witness for the amended C2 theorem at the concrete registries. -/
theorem c2_short_payload_witness :
    BLEManager.handleSensorData mgrDemo "m1" [7] = Except.error "RangeError"
    ∧ BLEManager.handleSensorData mgrDemo "m1" [7, 1]
        = Except.ok
            (mapSet mgrDemo "m1" { mgrDemoDevice with sensorValue := 7 + 256 * 1 },
             [BLEManager.Event.deviceUpdate { mgrDemoDevice with sensorValue := 7 + 256 * 1 }])
    ∧ BLEManager.handleButtonStatus mgrDemo "m1" []
        = (mapSet mgrDemo "m1" { mgrDemoDevice with buttonState := false, pressValue := 0 },
           [BLEManager.Event.buttonEvent "m1" false 0,
            BLEManager.Event.deviceUpdate
              { mgrDemoDevice with buttonState := false, pressValue := 0 }])
    ∧ BS2.handleCharacteristicData bs2Demo "b1" BS2.SENSOR_UUID []
        = (mapSet bs2Demo "b1" { bs2DemoInfo with sensorValue := none },
           [BS2.Event.characteristicChanged "b1", BS2.Event.deviceUpdated]) :=
  ⟨c2_short_payload_decoding.1 mgrDemo "m1" [7] mgrDemoDevice rfl (by decide),
   c2_short_payload_decoding.2.1 mgrDemo "m1" [7, 1] mgrDemoDevice rfl (by decide),
   c2_short_payload_decoding.2.2.1 mgrDemo "m1" mgrDemoDevice rfl,
   c2_short_payload_decoding.2.2.2 bs2Demo "b1" bs2DemoInfo rfl⟩

/-! ## C3 and C4 -- command clamping and framing -/

theorem clampColorComponent_range (v : Int) :
    0 ≤ WSServer.clampColorComponent v ∧ WSServer.clampColorComponent v ≤ 4 :=
  ⟨le_max_left 0 _, max_le (by norm_num) (min_le_left 4 v)⟩

theorem clampIntensity_range (v : Int) :
    5 ≤ WSServer.clampIntensity v ∧ WSServer.clampIntensity v ≤ 64 :=
  ⟨le_max_left 5 _, max_le (by norm_num) (min_le_left 64 v)⟩

/-- The devices map produced by part_010's own discovery of a fresh Cosmo
peripheral: its record has `service = none`, since part_010 never assigns
the `service` property. -/
def mgrFresh : List (String × BLEManager.Device) :=
  (BLEManager.handleDiscoveredDevice [] ⟨"m1", some "Cosmo", -50⟩).1

/-- C3 counterexample -- the claim says the setColor path writes the
5-byte frame `[2, clamp r, clamp g, clamp b, 1]` to the command
characteristic.  At the concrete request (9,9,9): the clamping handler
(ws-server.js:178-185) passes the clamped array `[4,4,4]` to
`bleServer.setColor`, whose body is empty, so ZERO GATT writes happen;
and `BLEManager.setColor` (part_010), invoked on the very device record
part_010's own discovery created, throws a TypeError instead of writing,
because that record's `service` property was never assigned. -/
theorem c3_counterexample_frame_never_written :
    WSServer.handleSetColor (some "m1") (some [9, 9, 9]) = some ([4, 4, 4], [])
    ∧ BLEManager.setColor mgrFresh "m1" 4 4 4 1
        = Except.error "TypeError: cannot read characteristics of undefined" := by
  exact ⟨by decide, rfl⟩

/-- C3 (amended) -- the WS setColor handler clamps each component into
[0,4] (identity on in-range values) but forwards the clamped array to the
empty `bleServer.setColor` stub, so NO frame is written on that path; and
`BLEManager.setColor` (part_010), the function that builds the frame
`Buffer.from([2, r, g, b, mode])` for `writeAsync(command, true)`, throws
a TypeError for every device whose record lacks the `service` property --
which is every record part_010's own discovery creates. -/
theorem c3_setColor_clamped_but_never_written :
    (∀ (did : String) (x y z : Int),
       WSServer.handleSetColor (some did) (some [x, y, z])
         = some ([WSServer.clampColorComponent x, WSServer.clampColorComponent y,
                  WSServer.clampColorComponent z], []))
  ∧ (∀ v : Int, 0 ≤ WSServer.clampColorComponent v ∧ WSServer.clampColorComponent v ≤ 4)
  ∧ (∀ v : Int, 0 ≤ v → v ≤ 4 → WSServer.clampColorComponent v = v)
  ∧ (∀ (devices : List (String × BLEManager.Device)) (id : String)
       (dev : BLEManager.Device) (r g b mode : Int),
       mapGet devices id = some dev → dev.service = none →
       BLEManager.setColor devices id r g b mode
         = Except.error "TypeError: cannot read characteristics of undefined")
  ∧ (∀ (ds : List (String × BLEManager.Device)) (p : Peripheral),
       BLEManager.isCosmoName p.localName = true → mapGet ds p.id = none →
       ∃ d, mapGet (BLEManager.handleDiscoveredDevice ds p).1 p.id = some d
         ∧ d.service = none) := by
  refine ⟨fun did x y z => rfl, clampColorComponent_range, ?_, ?_, ?_⟩
  · intro v h0 h4
    unfold WSServer.clampColorComponent
    rw [min_eq_right h4, max_eq_right h0]
  · intro devices id dev r g b mode hget hsvc
    simp [BLEManager.setColor, hget, hsvc]
  · intro ds p hname hget
    unfold BLEManager.handleDiscoveredDevice
    rw [if_neg (by simp [hname])]
    simp only [hget]
    exact ⟨_, mapGet_mapSet_self _ _ _, rfl⟩

/-- Witness for the amended C3 theorem at concrete inputs. -/
theorem c3_setColor_amended_witness :
    WSServer.handleSetColor (some "w1") (some [9, -3, 2])
      = some ([WSServer.clampColorComponent 9, WSServer.clampColorComponent (-3),
               WSServer.clampColorComponent 2], [])
    ∧ BLEManager.setColor mgrDemo "m1" 9 9 9 1
        = Except.error "TypeError: cannot read characteristics of undefined"
    ∧ (∃ d, mapGet (BLEManager.handleDiscoveredDevice [] ⟨"f1", some "Cosmo", -55⟩).1 "f1"
          = some d ∧ d.service = none) :=
  ⟨c3_setColor_clamped_but_never_written.1 "w1" 9 (-3) 2,
   c3_setColor_clamped_but_never_written.2.2.2.1 mgrDemo "m1" mgrDemoDevice 9 9 9 1 rfl rfl,
   c3_setColor_clamped_but_never_written.2.2.2.2 [] ⟨"f1", some "Cosmo", -55⟩ (by decide) rfl⟩

/-- C4 counterexample -- the claim says the setLuminosity path writes the
3-byte frame `[1, clamp intensity, delay]`.  At the concrete request 200:
the clamping handler (ws-server.js:187-194) passes 64 to
`bleServer.setLuminosity`, whose body is empty, so no GATT write happens;
and `BLEManager.setBrightness` (part_010), invoked on the device record
part_010's own discovery created, throws a TypeError instead of writing. -/
theorem c4_counterexample_frame_never_written :
    WSServer.handleSetLuminosity (some "m1") (some [200]) = some ([64], [])
    ∧ BLEManager.setBrightness mgrFresh "m1" 64 1
        = Except.error "TypeError: cannot read characteristics of undefined" := by
  exact ⟨by decide, rfl⟩

/-- C4 (amended) -- the WS setLuminosity handler clamps the intensity
into [5,64] (identity on in-range values) but forwards the clamped value
to the empty `bleServer.setLuminosity` stub, so no frame is written on
that path; and `BLEManager.setBrightness` (part_010), the function that
builds `Buffer.from([1, intensity, delay])` (delay defaulting to 1) for
`writeAsync(command, true)`, throws a TypeError for every device whose
record lacks the `service` property -- which is every record part_010's
own discovery creates. -/
theorem c4_setLuminosity_clamped_but_never_written :
    (∀ (did : String) (x : Int),
       WSServer.handleSetLuminosity (some did) (some [x])
         = some ([WSServer.clampIntensity x], []))
  ∧ (∀ v : Int, 5 ≤ WSServer.clampIntensity v ∧ WSServer.clampIntensity v ≤ 64)
  ∧ (∀ v : Int, 5 ≤ v → v ≤ 64 → WSServer.clampIntensity v = v)
  ∧ (∀ (devices : List (String × BLEManager.Device)) (id : String)
       (dev : BLEManager.Device) (intensity delay : Int),
       mapGet devices id = some dev → dev.service = none →
       BLEManager.setBrightness devices id intensity delay
         = Except.error "TypeError: cannot read characteristics of undefined") := by
  refine ⟨fun did x => rfl, clampIntensity_range, ?_, ?_⟩
  · intro v h5 h64
    unfold WSServer.clampIntensity
    rw [min_eq_right h64, max_eq_right h5]
  · intro devices id dev intensity delay hget hsvc
    simp [BLEManager.setBrightness, hget, hsvc]

/-- Witness for the amended C4 theorem at concrete inputs. -/
theorem c4_setLuminosity_amended_witness :
    WSServer.handleSetLuminosity (some "w1") (some [200])
      = some ([WSServer.clampIntensity 200], [])
    ∧ BLEManager.setBrightness mgrDemo "m1" 64 1
        = Except.error "TypeError: cannot read characteristics of undefined" :=
  ⟨c4_setLuminosity_clamped_but_never_written.1 "w1" 200,
   c4_setLuminosity_clamped_but_never_written.2.2.2 mgrDemo "m1" mgrDemoDevice 64 1 rfl rfl⟩

/-! ## C5 -- connecting while already Connecting or Ready -/

/-- An entry of the part_004 registry whose peripheral is connected. -/
def p4DemoEntry : P4.DeviceEntry :=
  { info := { id := "p1", name := "Cosmo", connected := true, rssi := -40 },
    peripheralState := "connected" }

/-- A part_004 registry holding the connected device `p1`. -/
def p4Demo : P4.State :=
  { discoveredDevices := [("p1", p4DemoEntry)],
    connectedDevices := [("p1", p4DemoEntry)] }

/-- C5 counterexample -- the claim says invoking connect for a connected
device is a no-op that does not disconnect the existing link and does not
start a second connection attempt.  For the connected device `p1`,
`connectToDevice` (part_004) first DISCONNECTS the existing link, waits,
stops scanning and starts a fresh connection attempt. -/
theorem c5_counterexample_connect_disconnects_first :
    P4.connectToDevicePre p4Demo "p1"
      = Except.ok [P4.ConnAction.disconnectExisting, P4.ConnAction.waitBeforeReconnect,
                   P4.ConnAction.stopScanning, P4.ConnAction.connectAttempt] := by
  rfl

/-- C5 (amended) -- the discovery-triggered connect path
(`BLEManager.handleDiscoveredDevice`) is a no-op while the device is
`connecting` or `connected` (the map is untouched and no connection
attempt starts); but the explicit `connectToDevice` operation (part_004
snapshot), invoked for a device whose peripheral is already connected, is
NOT a no-op: it disconnects the existing link, waits, stops scanning and
starts a fresh connection attempt. -/
theorem c5_connect_gating :
    (∀ (devices : List (String × BLEManager.Device)) (p : Peripheral)
       (d : BLEManager.Device),
       mapGet devices p.id = some d → (d.connected || d.connecting) = true →
       BLEManager.isCosmoName p.localName = true →
       BLEManager.handleDiscoveredDevice devices p
         = (devices, BLEManager.DiscoverOutcome.skippedBusy))
  ∧ (∀ (s : P4.State) (id : String) (e : P4.DeviceEntry),
       mapGet s.discoveredDevices id = some e → e.peripheralState = "connected" →
       P4.connectToDevicePre s id
         = Except.ok [P4.ConnAction.disconnectExisting, P4.ConnAction.waitBeforeReconnect,
                      P4.ConnAction.stopScanning, P4.ConnAction.connectAttempt]) := by
  constructor
  · intro devices p d hget hbusy hname
    simp only [BLEManager.handleDiscoveredDevice, hname, hget, hbusy]
    rfl
  · intro s id e hget hstate
    simp only [P4.connectToDevicePre, hget, hstate]
    rfl

/-- Witness for the amended C5 theorem: the busy device `m1` is skipped by
discovery; connecting the already-connected `p1` disconnects it first. -/
theorem c5_connect_gating_witness :
    BLEManager.handleDiscoveredDevice mgrDemo ⟨"m1", some "Cosmo", -60⟩
      = (mgrDemo, BLEManager.DiscoverOutcome.skippedBusy)
    ∧ P4.connectToDevicePre p4Demo "p1"
        = Except.ok [P4.ConnAction.disconnectExisting, P4.ConnAction.waitBeforeReconnect,
                     P4.ConnAction.stopScanning, P4.ConnAction.connectAttempt] :=
  ⟨c5_connect_gating.1 mgrDemo ⟨"m1", some "Cosmo", -60⟩ mgrDemoDevice rfl rfl (by decide),
   c5_connect_gating.2 p4Demo "p1" p4DemoEntry rfl rfl⟩

/-! ## C6 -- at most one record per id; re-discovery updates rssi only -/

theorem bs_discover_step_nodup (s : BLEServer.State) (p : Peripheral)
    (h : (mapKeys s.discoveredDevices).Nodup) :
    (mapKeys (BLEServer.handleDiscoveredDevice s p).1.discoveredDevices).Nodup := by
  unfold BLEServer.handleDiscoveredDevice
  by_cases hh : mapHas s.discoveredDevices p.id = false
  · rw [if_pos hh]
    exact mapKeys_nodup_mapSet _ _ _ h
  · rw [if_neg hh]
    cases hg : mapGet s.discoveredDevices p.id with
    | none => simp only [hg]; exact h
    | some dev => simp only [hg]; exact mapKeys_nodup_mapSet _ _ _ h

theorem bs_runDiscoveries_nodup (ps : List Peripheral) (s : BLEServer.State)
    (h : (mapKeys s.discoveredDevices).Nodup) :
    (mapKeys (BLEServer.runDiscoveries s ps).discoveredDevices).Nodup := by
  induction ps generalizing s with
  | nil => exact h
  | cons p rest ih => exact ih _ (bs_discover_step_nodup s p h)

theorem p4_discover_step_nodup (s : P4.State) (p : Peripheral)
    (h : (mapKeys s.discoveredDevices).Nodup) :
    (mapKeys (P4.handleDiscoveredDevice s p).1.discoveredDevices).Nodup := by
  unfold P4.handleDiscoveredDevice
  by_cases hn : p.localName ≠ some "Cosmo"
  · rw [if_pos hn]; exact h
  · rw [if_neg hn]
    by_cases hh : mapHas s.discoveredDevices p.id = false
    · rw [if_pos hh]
      exact mapKeys_nodup_mapSet _ _ _ h
    · rw [if_neg hh]
      cases hg : mapGet s.discoveredDevices p.id with
      | none => simp only [hg]; exact h
      | some dev =>
        simp only [hg]
        by_cases ht : 5 < (dev.info.rssi - p.rssi).natAbs
        · rw [if_pos ht]; exact mapKeys_nodup_mapSet _ _ _ h
        · rw [if_neg ht]; exact h

theorem p4_runDiscoveries_nodup (ps : List Peripheral) (s : P4.State)
    (h : (mapKeys s.discoveredDevices).Nodup) :
    (mapKeys (P4.runDiscoveries s ps).discoveredDevices).Nodup := by
  induction ps generalizing s with
  | nil => exact h
  | cons p rest ih => exact ih _ (p4_discover_step_nodup s p h)

theorem bs_rediscover_rssi_only (s : BLEServer.State) (p : Peripheral)
    (dev : BLEServer.DeviceInfo) (hget : mapGet s.discoveredDevices p.id = some dev) :
    (BLEServer.handleDiscoveredDevice s p).1.discoveredDevices
      = mapSet s.discoveredDevices p.id { dev with rssi := some p.rssi }
    ∧ (BLEServer.handleDiscoveredDevice s p).1.connectedDevices = s.connectedDevices
    ∧ (BLEServer.handleDiscoveredDevice s p).2
        = [BLEServer.Event.deviceUpdated { dev with rssi := some p.rssi }] := by
  have hh : mapHas s.discoveredDevices p.id = true := mapHas_of_mapGet_some hget
  unfold BLEServer.handleDiscoveredDevice
  rw [if_neg (by simp [hh])]
  simp only [hget]
  exact ⟨trivial, trivial, trivial⟩

/-- C6 -- however many discovery callbacks fire, the registry keeps at
most one record per id (key-uniqueness of `discoveredDevices` is
preserved by any sequence of discoveries, in the main BLEServer and in
the part_004 snapshot), and a repeated discovery of a known id only
updates that record's rssi field (part_004 additionally requires the
change to exceed 5 dBm, otherwise the map is untouched); no duplicate
entry is ever created. -/
theorem c6_one_record_per_id :
    (∀ (s : BLEServer.State) (ps : List Peripheral),
       (mapKeys s.discoveredDevices).Nodup →
       (mapKeys (BLEServer.runDiscoveries s ps).discoveredDevices).Nodup)
  ∧ (∀ (s : BLEServer.State) (p : Peripheral) (dev : BLEServer.DeviceInfo),
       mapGet s.discoveredDevices p.id = some dev →
       (BLEServer.handleDiscoveredDevice s p).1.discoveredDevices
         = mapSet s.discoveredDevices p.id { dev with rssi := some p.rssi }
       ∧ (BLEServer.handleDiscoveredDevice s p).2
           = [BLEServer.Event.deviceUpdated { dev with rssi := some p.rssi }])
  ∧ (∀ (s : P4.State) (ps : List Peripheral),
       (mapKeys s.discoveredDevices).Nodup →
       (mapKeys (P4.runDiscoveries s ps).discoveredDevices).Nodup)
  ∧ (∀ (s : P4.State) (p : Peripheral) (dev : P4.DeviceEntry),
       p.localName = some "Cosmo" →
       mapGet s.discoveredDevices p.id = some dev →
       (P4.handleDiscoveredDevice s p).1.discoveredDevices
         = (if 5 < (dev.info.rssi - p.rssi).natAbs
            then mapSet s.discoveredDevices p.id
                   { dev with info := { dev.info with rssi := p.rssi } }
            else s.discoveredDevices)) := by
  refine ⟨fun s ps h => bs_runDiscoveries_nodup ps s h, ?_, fun s ps h => p4_runDiscoveries_nodup ps s h, ?_⟩
  · intro s p dev hget
    exact ⟨(bs_rediscover_rssi_only s p dev hget).1, (bs_rediscover_rssi_only s p dev hget).2.2⟩
  · intro s p dev hname hget
    have hh : mapHas s.discoveredDevices p.id = true := mapHas_of_mapGet_some hget
    unfold P4.handleDiscoveredDevice
    rw [if_neg (by simp [hname])]
    rw [if_neg (by simp [hh])]
    simp only [hget]
    by_cases ht : 5 < (dev.info.rssi - p.rssi).natAbs
    · rw [if_pos ht, if_pos ht]
    · rw [if_neg ht, if_neg ht]

/-- Witness for C6 at concrete registries and discovery sequences. -/
theorem c6_one_record_witness :
    (mapKeys (BLEServer.runDiscoveries bsDemo
        [⟨"d1", some "Cosmo", -41⟩, ⟨"d2", some "Cosmo", -42⟩,
         ⟨"d1", some "Cosmo", -43⟩]).discoveredDevices).Nodup
    ∧ (BLEServer.handleDiscoveredDevice bsDemo ⟨"d1", some "Cosmo", -44⟩).1.discoveredDevices
        = mapSet bsDemo.discoveredDevices "d1" { bsDemoInfo with rssi := some (-44) }
    ∧ (mapKeys (P4.runDiscoveries p4Demo
        [⟨"p1", some "Cosmo", -50⟩, ⟨"p1", some "Cosmo", -50⟩]).discoveredDevices).Nodup
    ∧ (P4.handleDiscoveredDevice p4Demo ⟨"p1", some "Cosmo", -50⟩).1.discoveredDevices
        = (if 5 < ((p4DemoEntry.info.rssi - (-50 : Int)).natAbs)
           then mapSet p4Demo.discoveredDevices "p1"
                  { p4DemoEntry with info := { p4DemoEntry.info with rssi := -50 } }
           else p4Demo.discoveredDevices) :=
  ⟨c6_one_record_per_id.1 bsDemo
      [⟨"d1", some "Cosmo", -41⟩, ⟨"d2", some "Cosmo", -42⟩, ⟨"d1", some "Cosmo", -43⟩]
      (by decide),
   (c6_one_record_per_id.2.1 bsDemo ⟨"d1", some "Cosmo", -44⟩ bsDemoInfo rfl).1,
   c6_one_record_per_id.2.2.1 p4Demo
      [⟨"p1", some "Cosmo", -50⟩, ⟨"p1", some "Cosmo", -50⟩] (by decide),
   c6_one_record_per_id.2.2.2 p4Demo ⟨"p1", some "Cosmo", -50⟩ p4DemoEntry rfl rfl⟩

/-! ## C8 -- the heartbeat loop -/

theorem hbFold_after_termination (es : List WSServer.HBEvent) (c : Nat) :
    es.foldl (fun acc e =>
      ((WSServer.hbStep acc.1 e).1, acc.2 + (WSServer.hbStep acc.1 e).2)) (none, c)
      = (none, c) := by
  induction es generalizing c with
  | nil => rfl
  | cons e rest ih => simpa [WSServer.hbStep] using ih c

/-- C8 counterexample -- the claim says a client is terminated exactly
when it fails to answer 2 consecutive pings, and that one missed pong
alone does not terminate it.  A fresh client (`isAlive = true`) that
never pongs is pinged once at the first tick and already terminated at
the second tick: at termination exactly ONE ping has been sent and
missed. -/
theorem c8_counterexample_one_missed_pong_terminates :
    WSServer.hbRun (some true) [WSServer.HBEvent.tick, WSServer.HBEvent.tick] = (none, 1) := by
  rfl

/-- C8 (amended) -- the heartbeat interval is 30 seconds; at each tick a
client that was alive is pinged (its `isAlive` flag cleared), and a
client whose `isAlive` flag is still false -- i.e. one that missed a
single ping's pong -- is terminated and removed from the broadcast set; a
pong before the next tick saves the client; once terminated, a client is
never pinged again (`hbRun` stays `none` with zero further pings, and
`broadcast` only ever visits members of the client set). -/
theorem c8_heartbeat_first_missed_pong :
    WSServer.pingIntervalMs = 30000
  ∧ (∀ a : Bool, (WSServer.hbStep (some a) WSServer.HBEvent.tick).1 = none ↔ a = false)
  ∧ (∀ a : Bool, WSServer.hbStep (some a) WSServer.HBEvent.pong = (some true, 0))
  ∧ WSServer.hbRun (some true) [WSServer.HBEvent.tick] = (some false, 1)
  ∧ WSServer.hbRun (some true)
      [WSServer.HBEvent.tick, WSServer.HBEvent.pong, WSServer.HBEvent.tick] = (some false, 2)
  ∧ (∀ es : List WSServer.HBEvent, WSServer.hbRun none es = (none, 0)) := by
  refine ⟨rfl, ?_, fun a => rfl, rfl, rfl, fun es => hbFold_after_termination es 0⟩
  intro a
  cases a <;> simp [WSServer.hbStep]

/-! ## C9 -- greeting and snapshot on a new client connection -/

/-- C9 counterexample -- the claim says every new client connection is
first sent a message of type `connected` and then a `devicesList`
snapshot.  On the cited part_002 path (`WSServer.handleConnection`), the
new client receives exactly ONE message -- the `deviceList` snapshot --
and never a `connected` greeting: here at the concrete one-device
registry. -/
theorem c9_counterexample_no_greeting :
    P2.handleConnection mgrDemo = [P2.OutMsg.deviceList [P2.cleanDevice mgrDemoDevice]]
    ∧ P2.OutMsg.connectedGreeting ∉ P2.handleConnection mgrDemo := by
  exact ⟨rfl, by decide⟩

/-- C9 (amended) -- the main ws-server.js connection handler sends the
`connected` greeting first and then a `devicesList` snapshot containing
exactly the already-connected devices of the registry at connection time
(empty array with an empty registry); the part_002 snapshot's
`handleConnection` instead sends a single `deviceList` snapshot of ALL
known devices and never a `connected` greeting. -/
theorem c9_connection_greeting_then_snapshot :
    (∀ kds : List (String × WSServer.CleanDevice),
       WSServer.onClientConnection kds
         = [WSServer.OutMsg.connectedMsg,
            WSServer.OutMsg.devicesList (WSServer.getConnectedDevices kds)])
  ∧ (∀ (kds : List (String × WSServer.CleanDevice)) (d : WSServer.CleanDevice),
       d ∈ WSServer.getCleanDevices kds → d.connected = true →
       d ∈ WSServer.getConnectedDevices kds)
  ∧ (∀ (kds : List (String × WSServer.CleanDevice)) (d : WSServer.CleanDevice),
       d ∈ WSServer.getConnectedDevices kds →
       d.connected = true ∧ d ∈ WSServer.getCleanDevices kds)
  ∧ WSServer.onClientConnection []
      = [WSServer.OutMsg.connectedMsg, WSServer.OutMsg.devicesList []]
  ∧ (∀ ds : List (String × BLEManager.Device),
       P2.handleConnection ds
         = [P2.OutMsg.deviceList ((ds.map (fun p => p.2)).map P2.cleanDevice)])
  ∧ (∀ ds : List (String × BLEManager.Device),
       P2.OutMsg.connectedGreeting ∉ P2.handleConnection ds)
  ∧ (∀ (ds : List (String × BLEManager.Device)) (d : BLEManager.Device),
       d ∈ ds.map (fun p => p.2) →
       P2.cleanDevice d ∈ (ds.map (fun p => p.2)).map P2.cleanDevice) := by
  refine ⟨fun kds => rfl, ?_, ?_, rfl, fun ds => rfl, ?_, ?_⟩
  · intro kds d hmem hconn
    unfold WSServer.getConnectedDevices
    exact List.mem_filter.mpr ⟨hmem, by simp [hconn]⟩
  · intro kds d hmem
    have h := List.mem_filter.mp hmem
    exact ⟨by simpa using h.2, h.1⟩
  · intro ds
    simp [P2.handleConnection]
  · intro ds d hd
    exact List.mem_map_of_mem P2.cleanDevice hd

/-- A knownDevices registry with one connected and one disconnected
device. -/
def kdsDemo : List (String × WSServer.CleanDevice) :=
  [("k1", { id := "k1", name := "Cosmo", connected := true, rssi := -40, lastSeen := 0 }),
   ("k2", { id := "k2", name := "Cosmo II", connected := false, rssi := -70, lastSeen := 0 })]

/-- Witness for C9 at the two-device registry and the one-device
BLEManager registry. -/
theorem c9_connection_witness :
    WSServer.onClientConnection kdsDemo
      = [WSServer.OutMsg.connectedMsg,
         WSServer.OutMsg.devicesList (WSServer.getConnectedDevices kdsDemo)]
    ∧ ({ id := "k1", name := "Cosmo", connected := true, rssi := -40, lastSeen := 0 }
        : WSServer.CleanDevice) ∈ WSServer.getConnectedDevices kdsDemo
    ∧ WSServer.onClientConnection []
        = [WSServer.OutMsg.connectedMsg, WSServer.OutMsg.devicesList []]
    ∧ P2.OutMsg.connectedGreeting ∉ P2.handleConnection mgrDemo
    ∧ P2.cleanDevice mgrDemoDevice ∈ (mgrDemo.map (fun p => p.2)).map P2.cleanDevice :=
  ⟨c9_connection_greeting_then_snapshot.1 kdsDemo,
   c9_connection_greeting_then_snapshot.2.1 kdsDemo
     { id := "k1", name := "Cosmo", connected := true, rssi := -40, lastSeen := 0 }
     (by decide) rfl,
   c9_connection_greeting_then_snapshot.2.2.2.1,
   c9_connection_greeting_then_snapshot.2.2.2.2.2.1 mgrDemo,
   c9_connection_greeting_then_snapshot.2.2.2.2.2.2 mgrDemo mgrDemoDevice (by decide)⟩

/-! ## C10 -- broadcast fan-out, OPEN-only sends, per-client isolation -/

theorem p2_broadcast_abort (pre post : List WSServer.Client) (c : WSServer.Client)
    (hclean : ∀ a ∈ pre, a.readyState = WSServer.ReadyState.opened → a.sendThrows = false)
    (hc : c.readyState = WSServer.ReadyState.opened) (ht : c.sendThrows = true) :
    P2.broadcast (pre ++ c :: post) = ((P2.broadcast pre).1, true) := by
  induction pre with
  | nil => simp [P2.broadcast, hc, ht]
  | cons a rest ih =>
    have hrest : ∀ b ∈ rest, b.readyState = WSServer.ReadyState.opened → b.sendThrows = false :=
      fun b hb => hclean b (by simp [hb])
    by_cases ha : a.readyState = WSServer.ReadyState.opened
    · have hat : a.sendThrows = false := hclean a (by simp) ha
      simp [P2.broadcast, ha, hat, ih hrest]
    · simp [P2.broadcast, ha, ih hrest]

theorem p2_broadcast_total_of_no_throw (clients : List WSServer.Client)
    (h : ∀ a ∈ clients, a.readyState = WSServer.ReadyState.opened → a.sendThrows = false) :
    (P2.broadcast clients).1.length = clients.length ∧ (P2.broadcast clients).2 = false := by
  induction clients with
  | nil => exact ⟨rfl, rfl⟩
  | cons a rest ih =>
    have hrest : ∀ b ∈ rest, b.readyState = WSServer.ReadyState.opened → b.sendThrows = false :=
      fun b hb => h b (by simp [hb])
    rcases ih hrest with ⟨h1, h2⟩
    by_cases ha : a.readyState = WSServer.ReadyState.opened
    · have hat : a.sendThrows = false := h a (by simp) ha
      simp [P2.broadcast, ha, hat, h1, h2]
    · simp [P2.broadcast, ha, h1, h2]

/-- An OPEN client whose send succeeds. -/
def wsOpenClient : WSServer.Client :=
  { readyState := WSServer.ReadyState.opened, sendThrows := false }

/-- A closed client (readyState CLOSED). -/
def wsClosedClient : WSServer.Client :=
  { readyState := WSServer.ReadyState.closed, sendThrows := false }

/-- An OPEN client whose send throws. -/
def wsThrowingClient : WSServer.Client :=
  { readyState := WSServer.ReadyState.opened, sendThrows := true }

/-- C10 counterexample -- the claim says an error raised while sending to
one client never prevents delivery of the same message to the remaining
clients.  In the cited part_002 `broadcast`, which has no try/catch, the
second client's throwing send aborts the `forEach`: the third client is
OPEN yet is never visited -- only the first client got the message, and
the exception escaped. -/
theorem c10_counterexample_error_stops_fanout :
    P2.broadcast [wsOpenClient, wsThrowingClient, wsOpenClient]
      = ([WSServer.SendOutcome.sent], true) := by
  decide

/-- C10 (amended) -- in ws-server.js, a broadcast visits every client of
the set exactly once with no early abort; the outcome for a client is
`skipped` precisely when its readyState is not OPEN (the client stays in
the set -- `broadcast` only reads it); a throwing send yields
`errorCaught` (swallowed by `sendMessage`'s try/catch) and leaves every
other client's outcome unchanged; falsy data broadcasts nothing.  In the
part_002 snapshot's `broadcast`, which has NO try/catch, a throwing send
by one OPEN client escapes the `forEach`: clients before it keep the
message, clients after it are never visited; only when no OPEN client
throws does that variant too visit every client. -/
theorem c10_broadcast_fanout :
    (∀ clients : List WSServer.Client,
       (WSServer.broadcast clients true).length = clients.length)
  ∧ (∀ (clients : List WSServer.Client) (i : Nat) (c : WSServer.Client),
       clients.get? i = some c →
       ((WSServer.broadcast clients true).get? i = some WSServer.SendOutcome.skipped
         ↔ c.readyState ≠ WSServer.ReadyState.opened))
  ∧ (∀ (pre post : List WSServer.Client) (c : WSServer.Client),
       c.readyState = WSServer.ReadyState.opened → c.sendThrows = true →
       WSServer.broadcast (pre ++ c :: post) true
         = WSServer.broadcast pre true
             ++ WSServer.SendOutcome.errorCaught :: WSServer.broadcast post true)
  ∧ (∀ clients : List WSServer.Client, WSServer.broadcast clients false = [])
  ∧ (∀ (pre post : List WSServer.Client) (c : WSServer.Client),
       (∀ a ∈ pre, a.readyState = WSServer.ReadyState.opened → a.sendThrows = false) →
       c.readyState = WSServer.ReadyState.opened → c.sendThrows = true →
       P2.broadcast (pre ++ c :: post) = ((P2.broadcast pre).1, true))
  ∧ (∀ clients : List WSServer.Client,
       (∀ a ∈ clients, a.readyState = WSServer.ReadyState.opened → a.sendThrows = false) →
       (P2.broadcast clients).1.length = clients.length
       ∧ (P2.broadcast clients).2 = false) := by
  refine ⟨?_, ?_, ?_, fun clients => rfl,
    fun pre post c hclean hc ht => p2_broadcast_abort pre post c hclean hc ht,
    fun clients h => p2_broadcast_total_of_no_throw clients h⟩
  · intro clients
    simp [WSServer.broadcast]
  · intro clients i c hget
    unfold WSServer.broadcast
    rw [if_pos rfl, List.get?_map, hget]
    by_cases h : c.readyState = WSServer.ReadyState.opened
    · cases hc : c.sendThrows <;> simp [WSServer.sendMessage, h, hc]
    · simp [h]
  · intro pre post c hstate hthrow
    simp [WSServer.broadcast, WSServer.sendMessage, hstate, hthrow]

/-- Witness for C10 at concrete client sets: the ws-server.js broadcast
isolates the throwing client; the part_002 broadcast aborts at it. -/
theorem c10_broadcast_witness :
    (WSServer.broadcast [wsOpenClient, wsThrowingClient, wsClosedClient] true).length
      = [wsOpenClient, wsThrowingClient, wsClosedClient].length
    ∧ ((WSServer.broadcast [wsOpenClient, wsClosedClient] true).get? 1
        = some WSServer.SendOutcome.skipped
        ↔ wsClosedClient.readyState ≠ WSServer.ReadyState.opened)
    ∧ WSServer.broadcast ([wsOpenClient] ++ wsThrowingClient :: [wsClosedClient]) true
        = WSServer.broadcast [wsOpenClient] true
            ++ WSServer.SendOutcome.errorCaught :: WSServer.broadcast [wsClosedClient] true
    ∧ P2.broadcast ([wsOpenClient, wsClosedClient] ++ wsThrowingClient :: [wsOpenClient])
        = ((P2.broadcast [wsOpenClient, wsClosedClient]).1, true)
    ∧ (P2.broadcast [wsOpenClient, wsClosedClient]).1.length
        = [wsOpenClient, wsClosedClient].length :=
  ⟨c10_broadcast_fanout.1 [wsOpenClient, wsThrowingClient, wsClosedClient],
   c10_broadcast_fanout.2.1 [wsOpenClient, wsClosedClient] 1 wsClosedClient rfl,
   c10_broadcast_fanout.2.2.1 [wsOpenClient] [wsClosedClient] wsThrowingClient rfl rfl,
   c10_broadcast_fanout.2.2.2.2.1 [wsOpenClient, wsClosedClient] [wsOpenClient]
     wsThrowingClient (by decide) rfl rfl,
   (c10_broadcast_fanout.2.2.2.2.2 [wsOpenClient, wsClosedClient] (by decide)).1⟩

end CosmoidBridge
